import Mathlib

/-!
Shallow embedding of the `stm` repository (two Python scripts) and proofs
of the specification claims against it.

* `src/download_stock.py`: a CLI script that takes a ticker symbol,
  uppercases it, fetches one year of price data from an external provider,
  creates the `pre_stock` directory (with `exist_ok=True`) and writes the
  data as CSV to `pre_stock/<TICKER>.csv`.
* `src/ml/model.py`: seeds the RNGs, defines an LSTM model, generates
  synthetic noisy-sine training data, trains for 100 epochs printing the
  loss every 10 epochs, then creates `../model` and saves the weights to
  `../model/lstm_model.pth`.

External effects (filesystem, stdout, the provider call, RNG draws) are
made explicit: filesystem operations become an event trace interpreted
against an explicit filesystem state, the provider is a parameter
`fetch : String → String`, and the NumPy global RNG becomes an abstract
stream `draws : Nat → ℚ` consumed at an explicit counter.
-/

namespace STM

/-! ### Filesystem events and an explicit filesystem state -/

/-- A filesystem side effect performed by either script:
`os.makedirs(dir, exist_ok=flag)` or a file write (`data.to_csv` /
`torch.save`). -/
inductive FsEvent where
  | makedirs (dir : String) (exist_ok : Bool)
  | writeFile (path : String) (content : String)
  deriving DecidableEq, Repr

/-- Explicit filesystem state: the set of existing directories and a
path-to-content association for files. -/
structure FS where
  dirs : List String
  files : List (String × String)
  deriving DecidableEq, Repr

/-- Split a character list on a separator (the components, separator
dropped). -/
def splitOnChar (c : Char) : List Char → List (List Char)
  | [] => [[]]
  | x :: xs =>
    if x = c then [] :: splitOnChar c xs
    else
      match splitOnChar c xs with
      | [] => [[x]]
      | h :: t => (x :: h) :: t

/-- Parent directory of a path, e.g. `"pre_stock/AAPL.csv" ↦ "pre_stock"`. -/
def parentDir (path : String) : String :=
  String.mk (List.intercalate ['/'] ((splitOnChar '/' path.data).dropLast))

/-- `os.makedirs(d, exist_ok := ok)`: errors iff the directory already
exists and `exist_ok` is `false`; otherwise records the directory. -/
def FS.mkdir (fs : FS) (d : String) (exist_ok : Bool) : Option FS :=
  if d ∈ fs.dirs then
    if exist_ok then some fs else none
  else
    some { fs with dirs := d :: fs.dirs }

/-- Writing a file: requires the parent directory to exist and silently
overwrites any previous content at the same path. -/
def FS.write (fs : FS) (p c : String) : Option FS :=
  if parentDir p ∈ fs.dirs then
    some { fs with files := (p, c) :: fs.files.filter (fun q => q.1 ≠ p) }
  else
    none

/-- Look up the content of a file. -/
def FS.lookup (fs : FS) (p : String) : Option String :=
  (fs.files.find? (fun q => q.1 = p)).map (fun q => q.2)

/-- Interpret a list of filesystem events against a state; `none` means an
uncaught filesystem error. -/
def runEvents : List FsEvent → FS → Option FS
  | [], fs => some fs
  | FsEvent.makedirs d ok :: rest, fs => (fs.mkdir d ok).bind (runEvents rest)
  | FsEvent.writeFile p c :: rest, fs => (fs.write p c).bind (runEvents rest)

/-! ### The Downloader (`src/download_stock.py`) -/

/-- The usage message printed when no ticker argument is supplied. -/
def usageMsg : String := "Usage: python download_stock.py <TICKER>"

/-- `os.path.join` for the one two-component case the script uses. -/
def pathJoin (a b : String) : String := a ++ "/" ++ b

/-- Python's `str.upper()`: uppercase each character. -/
def upper (s : String) : String := String.mk (s.data.map Char.toUpper)

/-- Result of running a script: exit code, printed lines, filesystem
events in program order. -/
structure ProcResult where
  exitCode : Nat
  stdout : List String
  events : List FsEvent
  deriving DecidableEq, Repr

/-- The whole `download_stock.py` script as a function of `sys.argv`
(index 0 is the program name) and the external provider
`fetch` (`yf.download` with `period="1y"`). -/
def download_stock (fetch : String → String) (argv : List String) : ProcResult :=
  if argv.length < 2 then
    { exitCode := 1, stdout := [usageMsg], events := [] }
  else
    let ticker := upper (argv.getD 1 "")
    let data := fetch ticker
    let filename := pathJoin "pre_stock" (ticker ++ ".csv")
    { exitCode := 0,
      stdout := ["Downloaded data for " ++ ticker ++ " to " ++ filename],
      events := [FsEvent.makedirs "pre_stock" true,
                 FsEvent.writeFile filename data] }

/-! ### The Trainer (`src/ml/model.py`)

The numeric layer is kept abstract: `sin : ℚ → ℚ` stands for `np.sin`,
`pi : ℚ` for `np.pi`, and the globally seeded NumPy RNG is a stream
`draws : Nat → ℚ` consumed at an explicit counter (one call to
`np.random.rand()` consumes one draw, `np.random.randn(n)` consumes `n`).
Since `torch.manual_seed(0)` and `np.random.seed(0)` fix the stream, two
runs see the same `draws`. -/

/-- One iteration of the loop body of `create_synthetic_data`: the full
`seq_length + 1`-point noisy sine sample
`np.sin(np.linspace(start, start + np.pi, seq_length + 1)) + 0.1 * np.random.randn(seq_length + 1)`
where `start = np.random.rand() * 2 * np.pi` is the draw at `ctr` and the
noise values are the draws at `ctr + 1, …, ctr + seq_length + 1`. -/
def sineSample (sin : ℚ → ℚ) (pi : ℚ) (draws : Nat → ℚ)
    (seq_length : Nat) (ctr : Nat) : List ℚ :=
  let start := draws ctr * 2 * pi
  (List.range (seq_length + 1)).map (fun (i : Nat) =>
    sin (start + (i : ℚ) * (pi / (seq_length : ℚ))) + (1 / 10) * draws (ctr + 1 + i))

/-- Number of RNG draws one loop iteration consumes: one `rand()` plus
`seq_length + 1` values of `randn`. -/
def drawsPerSample (seq_length : Nat) : Nat := seq_length + 2

/-- `create_synthetic_data(seq_length, num_samples)`: returns the pair of
tensors after the final reshapes — `X` with shape
`(num_samples, seq_length, 1)` as a list of list of singleton lists, `y`
with shape `(num_samples, 1)` — together with the RNG counter after the
call (explicit state passing for the global RNG). Sample `k` uses the
draws starting at `ctr + k * (seq_length + 2)`; its `X` row is
`data[:-1]` and its label is `data[-1]`. -/
def create_synthetic_data (sin : ℚ → ℚ) (pi : ℚ) (draws : Nat → ℚ)
    (seq_length num_samples : Nat) (ctr : Nat) :
    List (List (List ℚ)) × List (List ℚ) × Nat :=
  let samp := fun k => sineSample sin pi draws seq_length (ctr + k * drawsPerSample seq_length)
  let X := (List.range num_samples).map (fun k => (samp k).dropLast)
  let y := (List.range num_samples).map (fun k => (samp k).getD seq_length 0)
  (X.map (fun row => row.map (fun v => [v])), y.map (fun v => [v]),
   ctr + num_samples * drawsPerSample seq_length)

/-- Loss function selected in `train_model` (`nn.MSELoss()`). -/
inductive LossKind where
  | mse
  deriving DecidableEq, Repr

/-- Optimizer selected in `train_model` (`optim.Adam(...)`). -/
inductive OptimKind where
  | adam
  deriving DecidableEq, Repr

/-- The architecture recorded by `LSTMModel.__init__`: an
`nn.LSTM(input_size, hidden_size, num_layers, batch_first=True)` followed
by `nn.Linear(hidden_size, output_size)`. -/
structure LSTMModelArch where
  lstm_input_size : Nat
  lstm_hidden_size : Nat
  lstm_num_layers : Nat
  batch_first : Bool
  fc_in_features : Nat
  fc_out_features : Nat
  deriving DecidableEq, Repr

/-- `LSTMModel(input_size, hidden_size, num_layers, output_size)`. -/
def LSTMModel (input_size hidden_size num_layers output_size : Nat) : LSTMModelArch :=
  { lstm_input_size := input_size, lstm_hidden_size := hidden_size,
    lstm_num_layers := num_layers, batch_first := true,
    fc_in_features := hidden_size, fc_out_features := output_size }

/-- The hyperparameters fixed at the top of `train_model`. -/
structure TrainConfig where
  input_size : Nat
  hidden_size : Nat
  num_layers : Nat
  output_size : Nat
  seq_length : Nat
  num_samples : Nat
  num_epochs : Nat
  learning_rate : ℚ
  loss : LossKind
  optimizer : OptimKind
  deriving DecidableEq, Repr

/-- The concrete configuration of `train_model`. -/
def trainConfig : TrainConfig :=
  { input_size := 1, hidden_size := 50, num_layers := 2, output_size := 1,
    seq_length := 10, num_samples := 1000, num_epochs := 100,
    learning_rate := 1 / 100, loss := LossKind.mse, optimizer := OptimKind.adam }

/-- The model instantiated by `train_model`. -/
def trainModelArch : LSTMModelArch :=
  LSTMModel trainConfig.input_size trainConfig.hidden_size
    trainConfig.num_layers trainConfig.output_size

/-- Observable steps of `train_model`, in program order. -/
inductive TrainEvent where
  | epochStep (epoch : Nat)
  | printLoss (epoch : Nat)
  | fs (e : FsEvent)
  | printSaved
  deriving DecidableEq, Repr

/-- The training loop's event trace: for `epoch` in `range(num_epochs)`,
one optimisation step, then `print` iff `(epoch + 1) % 10 == 0`
(epochs are reported 1-based as `epoch + 1`). -/
def epochTrace (num_epochs : Nat) : List TrainEvent :=
  (List.range num_epochs).flatMap (fun e =>
    TrainEvent.epochStep (e + 1) ::
      (if (e + 1) % 10 = 0 then [TrainEvent.printLoss (e + 1)] else []))

/-- The epochs at which the loop prints the loss. -/
def printedEpochs (num_epochs : Nat) : List Nat :=
  (epochTrace num_epochs).filterMap (fun ev =>
    match ev with
    | TrainEvent.printLoss k => some k
    | _ => none)

/-- The path `train_model` saves the weights to. -/
def modelPath : String := "../model/lstm_model.pth"

/-- Filesystem events of `train_model`, in program order:
`os.makedirs("../model", exist_ok=True)` then
`torch.save(model.state_dict(), model_path)`; `weights` is the serialized
state dict. -/
def trainFsEvents (weights : String) : List FsEvent :=
  [FsEvent.makedirs "../model" true, FsEvent.writeFile modelPath weights]

/-- The full `train_model` trace: the 100-epoch loop, then the directory
creation, the save, and the final print. No filesystem event occurs
before or inside the loop. -/
def trainTrace (weights : String) : List TrainEvent :=
  epochTrace trainConfig.num_epochs ++
    (trainFsEvents weights).map TrainEvent.fs ++ [TrainEvent.printSaved]

/-- Whether a trainer event is a file write (a save). -/
def TrainEvent.isSave : TrainEvent → Bool
  | TrainEvent.fs (FsEvent.writeFile _ _) => true
  | _ => false

/-! ### Theorems for the claims -/

/-- C1: with fewer than 2 entries in `argv` the Downloader prints the
usage string and exits with code 1; with a ticker argument present it
proceeds and exits with code 0. -/
theorem downloader_usage_exit (fetch : String → String) (argv : List String) :
    (argv.length < 2 →
      (download_stock fetch argv).exitCode = 1 ∧
      (download_stock fetch argv).stdout = [usageMsg]) ∧
    (2 ≤ argv.length → (download_stock fetch argv).exitCode = 0) := by
  refine ⟨fun h => ?_, fun h => ?_⟩
  · simp [download_stock, h]
  · simp [download_stock, Nat.not_lt.mpr h]

/-- Witness for C1: concrete runs with no ticker argument and with one. -/
theorem downloader_usage_exit_witness :
    ((download_stock (fun _ => "csv") ["download_stock.py"]).exitCode = 1 ∧
      (download_stock (fun _ => "csv") ["download_stock.py"]).stdout = [usageMsg]) ∧
    (download_stock (fun _ => "csv") ["download_stock.py", "aapl"]).exitCode = 0 :=
  ⟨(downloader_usage_exit (fun _ => "csv") ["download_stock.py"]).1 (by decide),
   (downloader_usage_exit (fun _ => "csv") ["download_stock.py", "aapl"]).2 (by decide)⟩

/-- C2: given a ticker argument, the Downloader uppercases it and writes
the fetched data to `pre_stock/<TICKER>.csv`. -/
theorem downloader_writes_upper_path (fetch : String → String) (argv : List String)
    (h : 2 ≤ argv.length) :
    (download_stock fetch argv).events =
      [FsEvent.makedirs "pre_stock" true,
       FsEvent.writeFile ("pre_stock/" ++ upper (argv.getD 1 "") ++ ".csv")
         (fetch (upper (argv.getD 1 "")))] := by
  simp only [download_stock, Nat.not_lt.mpr h, if_false, pathJoin]
  rw [String.append_assoc "pre_stock/" _ ".csv"]
  rfl

/-- Witness for C2: invoking the Downloader with ticker `aapl` writes the
fetched CSV to `pre_stock/AAPL.csv`. -/
theorem downloader_writes_upper_path_witness :
    (download_stock (fun t => "data:" ++ t) ["download_stock.py", "aapl"]).events =
      [FsEvent.makedirs "pre_stock" true,
       FsEvent.writeFile "pre_stock/AAPL.csv" "data:AAPL"] := by
  rw [downloader_writes_upper_path (fun t => "data:" ++ t) ["download_stock.py", "aapl"]
    (by decide)]
  decide

/-- C7: the Downloader's write is always preceded by the creation of the
`pre_stock` directory (`makedirs` is literally the event before the
write), and `makedirs` with `exist_ok=True` never fails, whether or not
the directory already exists. -/
theorem downloader_mkdir_before_write (fetch : String → String) (argv : List String)
    (h : 2 ≤ argv.length) :
    (∃ p c, (download_stock fetch argv).events =
        [FsEvent.makedirs "pre_stock" true, FsEvent.writeFile p c]) ∧
    ∀ fs : FS, (fs.mkdir "pre_stock" true).isSome := by
  refine ⟨⟨pathJoin "pre_stock" (upper (argv.getD 1 "") ++ ".csv"),
    fetch (upper (argv.getD 1 "")), ?_⟩, fun fs => ?_⟩
  · simp [download_stock, Nat.not_lt.mpr h]
  · unfold FS.mkdir
    by_cases hd : "pre_stock" ∈ fs.dirs <;> simp [hd]

/-- Witness for C7: a concrete run, including a filesystem on which
`pre_stock` already exists. -/
theorem downloader_mkdir_before_write_witness :
    (∃ p c, (download_stock (fun _ => "csv") ["download_stock.py", "msft"]).events =
        [FsEvent.makedirs "pre_stock" true, FsEvent.writeFile p c]) ∧
    (FS.mkdir { dirs := ["pre_stock"], files := [] } "pre_stock" true).isSome :=
  ⟨(downloader_mkdir_before_write (fun _ => "csv") ["download_stock.py", "msft"]
      (by decide)).1,
   (downloader_mkdir_before_write (fun _ => "csv") ["download_stock.py", "msft"]
      (by decide)).2 { dirs := ["pre_stock"], files := [] }⟩

/-- C10: the Downloader's behaviour depends only on the first command-line
argument: any two invocations with an equal first argument produce the
same exit code, output and filesystem events, extra arguments ignored. -/
theorem downloader_first_arg_only (fetch : String → String) (a b : List String)
    (ha : 2 ≤ a.length) (hb : 2 ≤ b.length) (h : a.getD 1 "" = b.getD 1 "") :
    download_stock fetch a = download_stock fetch b := by
  simp only [List.getD, List.get?_eq_getElem?] at h
  simp [download_stock, Nat.not_lt.mpr ha, Nat.not_lt.mpr hb, h]

/-- Witness for C10: extra arguments do not change the result. -/
theorem downloader_first_arg_only_witness :
    download_stock (fun t => t) ["download_stock.py", "msft"] =
      download_stock (fun t => t) ["prog", "msft", "--extra", "junk"] :=
  downloader_first_arg_only (fun t => t) ["download_stock.py", "msft"]
    ["prog", "msft", "--extra", "junk"] (by decide) (by decide) (by decide)

/-- Helper: a sample depends only on the `seq_length + 2` draws starting
at its counter. -/
theorem sineSample_congr (sin : ℚ → ℚ) (pi : ℚ) (d₁ d₂ : Nat → ℚ)
    (seq_length ctr : Nat)
    (h : ∀ j ≤ seq_length + 1, d₁ (ctr + j) = d₂ (ctr + j)) :
    sineSample sin pi d₁ seq_length ctr = sineSample sin pi d₂ seq_length ctr := by
  unfold sineSample
  have h0 : d₁ ctr = d₂ ctr := by simpa using h 0 (Nat.zero_le _)
  refine List.map_congr_left (fun i hi => ?_)
  have hi' : i < seq_length + 1 := List.mem_range.mp hi
  have hji : d₁ (ctr + (1 + i)) = d₂ (ctr + (1 + i)) := h (1 + i) (by omega)
  rw [h0, show ctr + 1 + i = ctr + (1 + i) from by omega, hji]

/-- C3: synthetic data generation is deterministic: two runs that see the
same RNG draws on the consumed window (as they do under the fixed seeds)
produce identical `(X, y)` pairs and final RNG counters. -/
theorem create_synthetic_data_deterministic (sin : ℚ → ℚ) (pi : ℚ)
    (d₁ d₂ : Nat → ℚ) (seq_length num_samples ctr : Nat)
    (h : ∀ i < num_samples * drawsPerSample seq_length,
      d₁ (ctr + i) = d₂ (ctr + i)) :
    create_synthetic_data sin pi d₁ seq_length num_samples ctr =
      create_synthetic_data sin pi d₂ seq_length num_samples ctr := by
  unfold create_synthetic_data
  have hs : ∀ k < num_samples,
      sineSample sin pi d₁ seq_length (ctr + k * drawsPerSample seq_length) =
        sineSample sin pi d₂ seq_length (ctr + k * drawsPerSample seq_length) := by
    intro k hk
    refine sineSample_congr sin pi d₁ d₂ seq_length _ (fun j hj => ?_)
    have hb : k * drawsPerSample seq_length + j < num_samples * drawsPerSample seq_length := by
      have hkk : k + 1 ≤ num_samples := hk
      have : (k + 1) * drawsPerSample seq_length ≤ num_samples * drawsPerSample seq_length :=
        Nat.mul_le_mul_right _ hkk
      have hj2 : j < drawsPerSample seq_length := by
        unfold drawsPerSample; omega
      calc k * drawsPerSample seq_length + j
          < k * drawsPerSample seq_length + drawsPerSample seq_length := by omega
        _ = (k + 1) * drawsPerSample seq_length := by ring
        _ ≤ num_samples * drawsPerSample seq_length := this
    have := h (k * drawsPerSample seq_length + j) hb
    rwa [show ctr + (k * drawsPerSample seq_length + j) =
      ctr + k * drawsPerSample seq_length + j from by omega] at this
  have hX : (List.range num_samples).map
        (fun k => (sineSample sin pi d₁ seq_length
          (ctr + k * drawsPerSample seq_length)).dropLast) =
      (List.range num_samples).map
        (fun k => (sineSample sin pi d₂ seq_length
          (ctr + k * drawsPerSample seq_length)).dropLast) :=
    List.map_congr_left (fun k hk => by rw [hs k (List.mem_range.mp hk)])
  have hy : (List.range num_samples).map
        (fun k => (sineSample sin pi d₁ seq_length
          (ctr + k * drawsPerSample seq_length)).getD seq_length 0) =
      (List.range num_samples).map
        (fun k => (sineSample sin pi d₂ seq_length
          (ctr + k * drawsPerSample seq_length)).getD seq_length 0) :=
    List.map_congr_left (fun k hk => by rw [hs k (List.mem_range.mp hk)])
  simp only [hX, hy]

/-- Witness for C3: two concretely different streams that agree on the
consumed window yield the same data. -/
theorem create_synthetic_data_deterministic_witness :
    (∀ i < 1 * drawsPerSample 1,
      (fun (n : Nat) => (n : ℚ)) (0 + i) = (fun (n : Nat) => if n < 3 then (n : ℚ) else 99) (0 + i)) ∧
    create_synthetic_data id 3 (fun (n : Nat) => (n : ℚ)) 1 1 0 =
      create_synthetic_data id 3 (fun (n : Nat) => if n < 3 then (n : ℚ) else 99) 1 1 0 :=
  ⟨by decide,
   create_synthetic_data_deterministic id 3 (fun (n : Nat) => (n : ℚ))
     (fun (n : Nat) => if n < 3 then (n : ℚ) else 99) 1 1 0 (by decide)⟩

/-- Helper: reading an element of a mapped range. -/
theorem getD_map_range {α : Type} (f : Nat → α) (n k : Nat) (d : α) (hk : k < n) :
    ((List.range n).map f).getD k d = f k := by
  rw [List.getD_eq_getElem?_getD]
  simp [List.getElem?_range, hk]

/-- C4: `create_synthetic_data(10, 1000)` yields exactly 1000 examples of
shape `(1000, 10, 1)` / `(1000, 1)`; row `k` is the first 10 points of an
11-point noisy sine sample (equally spaced points spanning `pi` from a
random start, plus `0.1`-scaled noise) and label `k` is the 11th point of
that same sample. -/
theorem create_synthetic_data_shape (sin : ℚ → ℚ) (pi : ℚ) (draws : Nat → ℚ)
    (ctr : Nat) :
    (create_synthetic_data sin pi draws 10 1000 ctr).1.length = 1000 ∧
    (create_synthetic_data sin pi draws 10 1000 ctr).2.1.length = 1000 ∧
    (∀ row ∈ (create_synthetic_data sin pi draws 10 1000 ctr).1,
      row.length = 10 ∧ ∀ cell ∈ row, cell.length = 1) ∧
    (∀ lab ∈ (create_synthetic_data sin pi draws 10 1000 ctr).2.1,
      lab.length = 1) ∧
    (∀ k, k < 1000 →
      (create_synthetic_data sin pi draws 10 1000 ctr).1.getD k [] =
        (List.range 10).map (fun (i : Nat) =>
          [sin (draws (ctr + k * 12) * 2 * pi + (i : ℚ) * (pi / 10)) +
            (1 / 10) * draws (ctr + k * 12 + 1 + i)]) ∧
      (create_synthetic_data sin pi draws 10 1000 ctr).2.1.getD k [] =
        [sin (draws (ctr + k * 12) * 2 * pi + (10 : ℚ) * (pi / 10)) +
          (1 / 10) * draws (ctr + k * 12 + 11)]) := by
  have hsamp : ∀ c : Nat, sineSample sin pi draws 10 c =
      (List.range 11).map (fun (i : Nat) =>
        sin (draws c * 2 * pi + (i : ℚ) * (pi / 10)) +
          (1 / 10) * draws (c + 1 + i)) := by
    intro c
    unfold sineSample
    norm_num
  have hdps : drawsPerSample 10 = 12 := rfl
  unfold create_synthetic_data
  simp only [hdps, hsamp]
  refine ⟨by simp, by simp, ?_, ?_, ?_⟩
  · intro row hrow
    simp only [List.mem_map, List.mem_range] at hrow
    obtain ⟨r, ⟨k, hk, rfl⟩, rfl⟩ := hrow
    constructor
    · simp
    · intro cell hcell
      simp only [List.mem_map] at hcell
      obtain ⟨v, hv, rfl⟩ := hcell
      rfl
  · intro lab hlab
    simp only [List.mem_map, List.mem_range] at hlab
    obtain ⟨r, ⟨k, hk, rfl⟩, rfl⟩ := hlab
    rfl
  · intro k hk
    constructor
    · rw [List.map_map, getD_map_range _ 1000 k [] hk]
      simp only [Function.comp]
      rw [show (11 : Nat) = 10 + 1 from rfl, List.range_succ, List.map_append]
      simp only [List.map_cons, List.map_nil, List.dropLast_concat, List.map_map]
      rfl
    · rw [List.map_map, getD_map_range _ 1000 k [] hk]
      simp only [Function.comp]
      rw [getD_map_range _ 11 10 0 (by omega)]
      rw [show ctr + k * 12 + 1 + 10 = ctr + k * 12 + 11 from by omega]
      norm_num

/-- Witness for C4: the shape and the label of example 5 on a concrete
stream. -/
theorem create_synthetic_data_shape_witness :
    (create_synthetic_data id 3 (fun (n : Nat) => (n : ℚ)) 10 1000 0).1.length = 1000 ∧
    (create_synthetic_data id 3 (fun (n : Nat) => (n : ℚ)) 10 1000 0).2.1.getD 5 [] =
      [id ((fun (n : Nat) => (n : ℚ)) (0 + 5 * 12) * 2 * 3 + (10 : ℚ) * (3 / 10)) +
        (1 / 10) * (fun (n : Nat) => (n : ℚ)) (0 + 5 * 12 + 11)] :=
  ⟨(create_synthetic_data_shape id 3 (fun (n : Nat) => (n : ℚ)) 0).1,
   ((create_synthetic_data_shape id 3 (fun (n : Nat) => (n : ℚ)) 0).2.2.2.2 5
     (by decide)).2⟩

/-- C5: `train_model` runs exactly 100 epochs over a 2-layer LSTM of
hidden size 50 with input/output size 1 plus a linear head, uses MSE loss
and Adam at learning rate 0.01, and the loop prints the loss exactly at
epochs 10, 20, …, 100 and at no other epoch. -/
theorem trainer_loop_schedule :
    trainConfig.num_epochs = 100 ∧
    printedEpochs trainConfig.num_epochs =
      [10, 20, 30, 40, 50, 60, 70, 80, 90, 100] ∧
    (epochTrace trainConfig.num_epochs).countP
      (fun e => match e with
        | TrainEvent.epochStep _ => true
        | _ => false) = 100 ∧
    trainModelArch = LSTMModel 1 50 2 1 ∧
    trainModelArch.lstm_hidden_size = 50 ∧
    trainModelArch.lstm_num_layers = 2 ∧
    trainModelArch.lstm_input_size = 1 ∧
    trainModelArch.fc_out_features = 1 ∧
    trainConfig.loss = LossKind.mse ∧
    trainConfig.optimizer = OptimKind.adam ∧
    trainConfig.learning_rate = 1 / 100 := by
  refine ⟨rfl, ?_, ?_, rfl, rfl, rfl, rfl, rfl, rfl, rfl, ?_⟩
  · set_option maxRecDepth 4000 in decide
  · set_option maxRecDepth 4000 in decide
  · norm_num [trainConfig]

/-- Helper: running the trainer's filesystem events from any state
succeeds, ends with the weights stored at `modelPath`, and leaves the
`../model` directory present. -/
theorem runTrainFs (weights : String) (fs : FS) :
    ∃ fs', runEvents (trainFsEvents weights) fs = some fs' ∧
      fs'.lookup modelPath = some weights ∧ "../model" ∈ fs'.dirs := by
  have hparent : parentDir modelPath = "../model" := rfl
  by_cases hd : "../model" ∈ fs.dirs
  · refine ⟨{ fs with
      files := (modelPath, weights) :: fs.files.filter (fun q => q.1 ≠ modelPath) },
      ?_, ?_, hd⟩
    · simp [trainFsEvents, runEvents, FS.mkdir, FS.write, hd, hparent]
    · simp [FS.lookup]
  · refine ⟨FS.mk ("../model" :: fs.dirs)
      ((modelPath, weights) :: fs.files.filter (fun q => q.1 ≠ modelPath)),
      ?_, ?_, by simp⟩
    · simp [trainFsEvents, runEvents, FS.mkdir, FS.write, hd, hparent]
    · simp [FS.lookup]

/-- C6: the trainer's trace contains exactly one save — of the weights to
`../model/lstm_model.pth` — and it comes after the whole training loop
(no event of the loop is a save); moreover running the trainer's
filesystem events from ANY state (in particular one where a previous
parameter file exists) succeeds and leaves the new weights at that path,
i.e. re-runs overwrite without error. -/
theorem trainer_saves_once_after_loop (weights : String) (fs : FS) :
    (trainTrace weights).filter TrainEvent.isSave =
      [TrainEvent.fs (FsEvent.writeFile modelPath weights)] ∧
    (∀ e ∈ epochTrace trainConfig.num_epochs, TrainEvent.isSave e = false) ∧
    modelPath = "../model/lstm_model.pth" ∧
    ∃ fs', runEvents (trainFsEvents weights) fs = some fs' ∧
      fs'.lookup modelPath = some weights := by
  obtain ⟨fs', h1, h2, -⟩ := runTrainFs weights fs
  refine ⟨?_, by decide, rfl, fs', h1, h2⟩
  unfold trainTrace
  rw [List.filter_append, List.filter_append]
  have hloop : (epochTrace trainConfig.num_epochs).filter TrainEvent.isSave = [] := by
    decide
  rw [hloop]
  simp [trainFsEvents, TrainEvent.isSave]

/-- Witness for C6: a concrete re-run over a filesystem that already holds
an old parameter file. -/
theorem trainer_saves_once_after_loop_witness :
    (trainTrace "w2").filter TrainEvent.isSave =
      [TrainEvent.fs (FsEvent.writeFile modelPath "w2")] ∧
    TrainEvent.isSave (TrainEvent.epochStep 1) = false ∧
    ∃ fs', runEvents (trainFsEvents "w2")
        { dirs := ["../model"], files := [(modelPath, "w1")] } = some fs' ∧
      fs'.lookup modelPath = some "w2" :=
  ⟨(trainer_saves_once_after_loop "w2"
      { dirs := ["../model"], files := [(modelPath, "w1")] }).1,
   (trainer_saves_once_after_loop "w2"
      { dirs := ["../model"], files := [(modelPath, "w1")] }).2.1
     (TrainEvent.epochStep 1) (by decide),
   (trainer_saves_once_after_loop "w2"
      { dirs := ["../model"], files := [(modelPath, "w1")] }).2.2.2⟩

/-- C9: the trainer creates `../model` with `exist_ok` semantics before
the save: starting from a state where the directory is absent, the
directory creation precedes the write in the event list and the whole
sequence still succeeds, ending with the directory present. -/
theorem trainer_mkdir_before_save (weights : String) (fs : FS)
    (_absent : "../model" ∉ fs.dirs) :
    trainFsEvents weights =
      [FsEvent.makedirs "../model" true, FsEvent.writeFile modelPath weights] ∧
    ∃ fs', runEvents (trainFsEvents weights) fs = some fs' ∧
      "../model" ∈ fs'.dirs := by
  obtain ⟨fs', h1, -, h3⟩ := runTrainFs weights fs
  exact ⟨rfl, fs', h1, h3⟩

/-- Witness for C9: a concrete run from an empty filesystem. -/
theorem trainer_mkdir_before_save_witness :
    ("../model" ∉ (FS.mk [] []).dirs) ∧
    (trainFsEvents "w" =
      [FsEvent.makedirs "../model" true, FsEvent.writeFile modelPath "w"] ∧
    ∃ fs', runEvents (trainFsEvents "w") (FS.mk [] []) = some fs' ∧
      "../model" ∈ fs'.dirs) :=
  ⟨by decide, trainer_mkdir_before_save "w" (FS.mk [] []) (by decide)⟩

end STM
